import Mathlib

/-!
Verification of the ft_transcendence real-time multiplayer session engine and
its auth boundary.

The development shallowly embeds:
* the Pong simulation core (playfield constants, per-tick `advance`, scoring,
  win threshold) following §4.1 of the specification with the numeric
  constants documented in `review-issue-docs/game-room-review.md`;
* the session input operation `applyInput` (§4.2);
* the Connection Gateway message handler quoted in `docs/CODE_REVIEW.md`
  (`apps/game-service/src/ws/game.ws.ts`);
* the outbound finish notification `notifyRoomService` / `endGame`
  (design document and `issue.md` §3.2);
* the reconnection grace window of `GameManager`
  (`review-issue-docs/game-room-review.md` issues 7 and the `Player` model);
* the WebSocket close-code table (`review-issue-docs/game-room-review.md`);
* `registerUser` / `registerUserHandler` and `verifyJwt` from the
  auth-service sources.
-/

namespace Transcendence

/-! ## Simulation constants

From the `Game Constants` block documented in
`review-issue-docs/game-room-review.md` (`apps/game-service/src/game/constants.ts`). -/

def GAME_WIDTH : ℚ := 800
def GAME_HEIGHT : ℚ := 600
def PADDLE_HEIGHT : ℚ := 100
def PADDLE_WIDTH : ℚ := 10
def PADDLE_SPEED : ℚ := 8
def BALL_SIZE : ℚ := 10
def BALL_SPEED : ℚ := 5

/-- Default win threshold (`WIN_SCORE = 11`, configurable per room). -/
def WIN_SCORE : ℕ := 11

/-- Modelled from the spec: `dt` is "clamped to a maximum to avoid large-step
instability"; the concrete cap is one scheduler period worth of time units
(the tick sources are not in the corpus, so the cap value is representative). -/
def MAX_DT : ℚ := 1

/-! ## Simulation state -/

/-- Movement direction of a paddle: one of negative, none, positive (§4.1). -/
inductive Dir
  | neg
  | zero
  | pos
deriving DecidableEq, Repr

def Dir.toQ : Dir → ℚ
  | .neg => -1
  | .zero => 0
  | .pos => 1

/-- Which of the two participants. -/
inductive Side
  | one
  | two
deriving DecidableEq, Repr

structure Ball where
  x : ℚ
  y : ℚ
  vx : ℚ
  vy : ℚ
deriving DecidableEq, Repr

/-- Simulation State (§3): ball position and velocity, two paddle positions,
two integer scores, a configurable win threshold, and the conclusion marker
with the designated winner. -/
structure SimState where
  ball : Ball
  paddle1 : ℚ
  paddle2 : ℚ
  score1 : ℕ
  score2 : ℕ
  winScore : ℕ
  winner : Option Side
deriving DecidableEq, Repr

/-- Clamp `v` into `[0, hi]`. -/
def clampQ (hi v : ℚ) : ℚ := max 0 (min v hi)

/-- Modelled from the spec: ball reset after a scoring event — "reset ball to
center with velocity direction biased toward the participant who was just
scored against" (§4.1); participant one defends the left edge. -/
def resetBall (scoredAgainst : Side) : Ball :=
  { x := GAME_WIDTH / 2
    y := GAME_HEIGHT / 2
    vx := match scoredAgainst with
      | .one => -BALL_SPEED
      | .two => BALL_SPEED
    vy := 0 }

/-- Paddle movement for one tick: fixed speed for the clamped elapsed time,
clamped to the playfield vertical bounds (§4.1). -/
def paddleStep (dtc : ℚ) (d : Dir) (y : ℚ) : ℚ :=
  clampQ (GAME_HEIGHT - PADDLE_HEIGHT) (y + PADDLE_SPEED * d.toQ * dtc)

/-- Ball update outcome: the moved ball and, when a horizontal boundary was
crossed, the side that was scored against. -/
structure Moved where
  ball : Ball
  scored : Option Side
deriving DecidableEq, Repr

/-- Ball movement for one tick: linear motion; vertical walls reflect the
vertical velocity (position clamped to the playfield); a paddle hit reflects
the horizontal velocity and perturbs the vertical velocity by a deterministic
function of the contact offset from the paddle center; crossing a horizontal
boundary behind a paddle is a scoring event that resets the ball toward the
side scored against (§4.1). -/
def reflectVy (yRaw vy0 : ℚ) : ℚ :=
  if yRaw < 0 ∨ GAME_HEIGHT - BALL_SIZE < yRaw then -vy0 else vy0

def moveBall (dtc p1 p2 : ℚ) (b : Ball) : Moved :=
  let bx := b.x + b.vx * dtc
  let yRaw := b.y + b.vy * dtc
  let vy := reflectVy yRaw b.vy
  let y := clampQ (GAME_HEIGHT - BALL_SIZE) yRaw
  if bx ≤ PADDLE_WIDTH ∧ p1 - BALL_SIZE ≤ y ∧ y ≤ p1 + PADDLE_HEIGHT then
    ⟨⟨PADDLE_WIDTH, y, BALL_SPEED, vy + (y + BALL_SIZE / 2 - (p1 + PADDLE_HEIGHT / 2)) / 16⟩, none⟩
  else if GAME_WIDTH - PADDLE_WIDTH - BALL_SIZE ≤ bx ∧ p2 - BALL_SIZE ≤ y ∧ y ≤ p2 + PADDLE_HEIGHT then
    ⟨⟨GAME_WIDTH - PADDLE_WIDTH - BALL_SIZE, y, -BALL_SPEED, vy + (y + BALL_SIZE / 2 - (p2 + PADDLE_HEIGHT / 2)) / 16⟩, none⟩
  else if bx < 0 then
    ⟨resetBall .one, some .one⟩
  else if GAME_WIDTH - BALL_SIZE < bx then
    ⟨resetBall .two, some .two⟩
  else
    ⟨⟨bx, y, b.vx, vy⟩, none⟩

/-- Fold the ball outcome into the session state: on a scoring event the
opposing participant's score is incremented and, should it reach the
configured threshold, the simulation concludes with that participant as the
designated winner (§4.1). -/
def applyMove (p1 p2 : ℚ) (m : Moved) (s : SimState) : SimState :=
  match m.scored with
  | none => { s with ball := m.ball, paddle1 := p1, paddle2 := p2 }
  | some .one =>
      { s with
          ball := m.ball
          paddle1 := p1
          paddle2 := p2
          score2 := s.score2 + 1
          winner := if s.winScore ≤ s.score2 + 1 then some .two else none }
  | some .two =>
      { s with
          ball := m.ball
          paddle1 := p1
          paddle2 := p2
          score1 := s.score1 + 1
          winner := if s.winScore ≤ s.score1 + 1 then some .one else none }

/-- Modelled from the spec: `advance(dt, inputs)` (§4.1); the
`GameInstance.ts` source is not in the corpus, only its review
documentation. `dt` is clamped to `MAX_DT`, paddles and the ball move as in
`paddleStep` and `moveBall`, and a scoring event updates score, winner and
conclusion through `applyMove`. Once concluded, no further ticks are
applied. -/
def advance (dt : ℚ) (d1 d2 : Dir) (s : SimState) : SimState :=
  if s.winner.isSome then s
  else
    let dtc := min dt MAX_DT
    let p1 := paddleStep dtc d1 s.paddle1
    let p2 := paddleStep dtc d2 s.paddle2
    applyMove p1 p2 (moveBall dtc p1 p2 s.ball) s

/-- Initial simulation state: ball at center moving horizontally, paddles
centered on the vertical axis, scores zero. -/
def initState (winScore : ℕ) : SimState :=
  { ball := ⟨GAME_WIDTH / 2, GAME_HEIGHT / 2, BALL_SPEED, 0⟩
    paddle1 := (GAME_HEIGHT - PADDLE_HEIGHT) / 2
    paddle2 := (GAME_HEIGHT - PADDLE_HEIGHT) / 2
    score1 := 0
    score2 := 0
    winScore := winScore
    winner := none }

/-- One scheduler step: elapsed time and the two latest inputs. -/
abbrev Step := ℚ × Dir × Dir

/-- Fold a sequence of `(dt, inputs)` steps through `advance`. -/
def runSim (s : SimState) : List Step → SimState
  | [] => s
  | (dt, d1, d2) :: rest => runSim (advance dt d1 d2 s) rest

/-- The per-tick output trace: the state after each step. -/
def simTrace (s : SimState) : List Step → List SimState
  | [] => []
  | (dt, d1, d2) :: rest =>
      advance dt d1 d2 s :: simTrace (advance dt d1 d2 s) rest

/-! ## Connection Gateway inbound message handling

Embedded from the handler quoted in `docs/CODE_REVIEW.md` (critical issue 1,
`apps/game-service/src/ws/game.ws.ts` line 26): the message callback runs
`JSON.parse(msg.toString())` with no surrounding try/catch, then the decoded
direction passes through the `isValidWsInput` check (`-1 | 0 | 1`,
`issue.md` §4.1) before reaching `GameInstance.handleInput`. -/

/-- Drop leading spaces. -/
def skipWs : List Char → List Char
  | [] => []
  | c :: rest => if c = ' ' then skipWs rest else c :: rest

/-- Consume the exact token `ts` from the front of the input. -/
def expectChars : List Char → List Char → Option (List Char)
  | [], s => some s
  | _ :: _, [] => none
  | t :: ts, c :: cs => if c = t then expectChars ts cs else none

/-- Split off a maximal run of leading decimal digits. -/
def takeDigits : List Char → List Char × List Char
  | [] => ([], [])
  | c :: rest =>
      if c.isDigit then
        let p := takeDigits rest
        (c :: p.1, p.2)
      else ([], c :: rest)

/-- Value of a digit run. -/
def digitsToNat (ds : List Char) : ℕ :=
  ds.foldl (fun a c => a * 10 + (c.toNat - 48)) 0

/-- Parse an optionally negated integer literal. -/
def parseInt (l : List Char) : Option (ℤ × List Char) :=
  match l with
  | [] => none
  | c :: rest =>
      if c = '-' then
        match takeDigits rest with
        | ([], _) => none
        | (ds, r) => some (-(digitsToNat ds : ℤ), r)
      else
        match takeDigits l with
        | ([], _) => none
        | (ds, r) => some ((digitsToNat ds : ℤ), r)

/-- Decoded JSON values for the inbound protocol: either a bare number or an
object carrying a `direction` field (the movement command of §6). -/
inductive JsonVal
  | num (n : ℤ)
  | dirObj (direction : ℤ)
deriving DecidableEq, Repr

/-- Characters of the quoted key `direction`. -/
def keyDirection : List Char :=
  ['"', 'd', 'i', 'r', 'e', 'c', 't', 'i', 'o', 'n', '"']

/-- Model of `JSON.parse` on the inbound message grammar: a movement-command
object or a bare integer; `none` models the parser throwing a `SyntaxError`. -/
def jsonParse (s : String) : Option JsonVal :=
  let l := skipWs s.toList
  match expectChars ['\x7b'] l with
  | some l1 =>
      (expectChars keyDirection (skipWs l1)).bind fun l2 =>
      (expectChars [':'] (skipWs l2)).bind fun l3 =>
      (parseInt (skipWs l3)).bind fun p =>
      (expectChars ['\x7d'] (skipWs p.2)).bind fun l4 =>
      if skipWs l4 = [] then some (.dirObj p.1) else none
  | none =>
      (parseInt l).bind fun p =>
      if skipWs p.2 = [] then some (.num p.1) else none

/-- Outcome of one delivery of an inbound frame to the message callback. -/
inductive WsOutcome
  | applied (direction : ℤ)
  | ignored
  | crashed
deriving DecidableEq, Repr

/-- Handler `ws.on('message')` as quoted in `docs/CODE_REVIEW.md`: the raw
payload goes straight into `JSON.parse` with no error handling, so a payload
the parser rejects propagates the exception out of the connection handler
(`crashed`) — no error notice is sent on the connection. A decoded direction
is validated against `-1 | 0 | 1` and otherwise the message is dropped. -/
def onMessage (raw : String) : WsOutcome :=
  match jsonParse raw with
  | none => .crashed
  | some (.dirObj d) => if d = -1 ∨ d = 0 ∨ d = 1 then .applied d else .ignored
  | some (.num _) => .ignored

/-- Sample malformed frame: a lone opening brace, on which `JSON.parse`
throws. -/
def malformedMsg : String := ⟨['\x7b']⟩

/-- Sample well-formed movement command with direction `1`. -/
def wellFormedMsg : String :=
  ⟨['\x7b', '"', 'd', 'i', 'r', 'e', 'c', 't', 'i', 'o', 'n', '"', ':', '1', '\x7d']⟩

/-! ## Outbound finish notification

Embedded from the design document (`notifyRoomService` in
`src/unnamed/part_001`) and `issue.md` §3.2 (`GameManager.endGame`). -/

/-- Result fields read by `notifyRoomService`; `none` models a field that is
absent on the value it was given (JavaScript `undefined`). -/
structure GameResults where
  winnerId : Option String
  scores : Option (ℕ × ℕ)
  duration : Option ℕ
deriving DecidableEq, Repr

/-- Internal action selector of `notifyRoomService`. -/
inductive NotifyAction
  | leave
  | finish
deriving DecidableEq, Repr

/-- Body of the POST the game service sends to the room service. -/
structure FinishPayload where
  winnerId : Option String
  scores : Option (ℕ × ℕ)
  duration : Option ℕ
deriving DecidableEq, Repr

/-- Method `GameManager.notifyRoomService(roomId, results, action)`: picks the
`leave-internal` or `finish` path and posts `winnerId`, `scores` and
`duration` read off the `results` argument. -/
def notifyRoomService (roomId : String) (results : GameResults)
    (action : NotifyAction) : String × FinishPayload :=
  (match action with
    | .leave => roomId ++ "/leave-internal"
    | .finish => roomId ++ "/finish"
   , ⟨results.winnerId, results.scores, results.duration⟩)

/-- Field reads on the empty-string results value: every field is absent. -/
def emptyResults : GameResults := ⟨none, none, none⟩

/-- Method `GameManager.endGame` as documented in `issue.md` §3.2: it calls
`notifyRoomService(roomId, '', 'finish')` — the results argument is the empty
string, so the dispatched finish report carries no winner, scores or
duration. -/
def endGameNotify (roomId : String) : String × FinishPayload :=
  notifyRoomService roomId emptyResults .finish

/-! ## Reconnection grace window

Embedded from `review-issue-docs/game-room-review.md`: the `Player` model
notes a 30 s reconnection window (`reconnectTimer`), and issue 7 records that
the 30-second timeout is hardcoded in `GameManager` and not configurable. -/

/-- Hardcoded 30-second reconnection timeout of `GameManager`. -/
def RECONNECT_TIMEOUT_MS : ℕ := 30000

/-- Deployment configuration; a configured grace-window duration would live
here, as the spec prescribes. -/
structure EngineConfig where
  reconnectWindowMs : ℕ
deriving DecidableEq, Repr

/-- Grace window the session engine actually uses for a paused session: the
hardcoded constant, regardless of configuration. -/
def graceWindowMs (_cfg : EngineConfig) : ℕ := RECONNECT_TIMEOUT_MS

/-- Instant at which a session paused at `pausedAtMs` ends by forfeit when no
reconnection happens. -/
def forfeitAtMs (cfg : EngineConfig) (pausedAtMs : ℕ) : ℕ :=
  pausedAtMs + graceWindowMs cfg

/-! ## Session input operation -/

/-- Session lifecycle status (§3). -/
inductive SessionStatus
  | awaitingConnections
  | running
  | paused
  | ended
deriving DecidableEq, Repr

/-- The two participant slots of a session. -/
inductive Pid
  | a
  | b
deriving DecidableEq, Repr

/-- Session state relevant to input handling: the status and the latest
stored movement direction per participant. -/
structure GameSession where
  status : SessionStatus
  inputA : ℤ
  inputB : ℤ
deriving DecidableEq, Repr

/-- Failure of `applyInput`. -/
inductive InputError
  | invalidInput
deriving DecidableEq, Repr

/-- Latest stored input of a participant. -/
def latestInput (pid : Pid) (s : GameSession) : ℤ :=
  match pid with
  | .a => s.inputA
  | .b => s.inputB

/-- Modelled from the spec: `applyInput(participantId, direction)` (§4.2)
validates that the direction is one of the three permitted values and fails
with `InvalidInput` otherwise (cf. `isValidWsInput` checking `-1 | 0 | 1`,
`issue.md` §4.1); a permitted direction is stored as the participant's latest
input for the next tick; the call has no effect when the session is not
running. The `GameInstance.handleInput` source is not in the corpus. -/
def applyInput (pid : Pid) (direction : ℤ) (s : GameSession) :
    Except InputError GameSession :=
  if direction = -1 ∨ direction = 0 ∨ direction = 1 then
    if s.status = .running then
      .ok (match pid with
        | .a => { s with inputA := direction }
        | .b => { s with inputB := direction })
    else .ok s
  else .error .invalidInput

/-! ## WebSocket close codes -/

/-- Terminal connection outcomes listed in §6 of the spec. -/
inductive TermOutcome
  | roomFull
  | gameNotFound
  | authFailure
  | internalFailure
  | serverShutdown
deriving DecidableEq, Repr

/-- Modelled from the spec: the termination-code mapping of the Connection
Gateway, with the concrete numeric values from the WebSocket close-code table
documented in `review-issue-docs/game-room-review.md` (the `game.ws.ts`
source is not in the corpus). -/
def closeCode : TermOutcome → ℕ
  | .roomFull => 4003
  | .gameNotFound => 4004
  | .authFailure => 1008
  | .internalFailure => 1011
  | .serverShutdown => 1001

/-! ## Auth service: registration

Embedded from `apps/auth-service/src/controllers/auth.controller.ts`
(`registerUserHandler`), the service `registerUser` (`src/unnamed/part_000`)
and the register route schema
(`apps/auth-service/src/schemas/auth.register.schema.ts`). -/

/-- Unique-keyed columns of the `authUser` table that the duplicate checks
consult. -/
structure AuthDb where
  emails : List String
  usernames : List String
deriving DecidableEq, Repr

/-- Request body of `POST /register`. -/
structure RegisterBody where
  email : String
  username : String
  password : String
deriving DecidableEq, Repr

/-- Errors the registration path can surface to the controller; `other`
stands for any throw that is neither duplicate code (for example a database
failure). -/
inductive RegError
  | emailExists
  | usernameExists
  | other
deriving DecidableEq, Repr

/-- User record returned without the password hash. -/
structure SafeUser where
  email : String
  username : String
deriving DecidableEq, Repr

/-- Service `registerUser`: looks the email up first and throws
`EMAIL_EXISTS` if taken, then the username (`USERNAME_EXISTS`), otherwise
creates the user and returns it without the password hash. -/
def registerUser (db : AuthDb) (b : RegisterBody) : Except RegError SafeUser :=
  if b.email ∈ db.emails then .error .emailExists
  else if b.username ∈ db.usernames then .error .usernameExists
  else .ok ⟨b.email, b.username⟩

/-- Response body: either the created user or an error message. -/
inductive RespBody
  | user (u : SafeUser)
  | message (m : String)
deriving DecidableEq, Repr

/-- HTTP response of the handler. -/
structure HttpResponse where
  status : ℕ
  body : RespBody
deriving DecidableEq, Repr

/-- Error mapping of `registerUserHandler`'s catch block: `EMAIL_EXISTS` and
`USERNAME_EXISTS` become status 400 with their messages, everything else
becomes status 500; the success path replies 200 with the user. -/
def registerReply : Except RegError SafeUser → HttpResponse
  | .ok u => ⟨200, .user u⟩
  | .error .emailExists => ⟨400, .message "Email is already registered"⟩
  | .error .usernameExists => ⟨400, .message "Username is already taken"⟩
  | .error .other => ⟨500, .message "Internal server error"⟩

/-- Controller `registerUserHandler`: runs the service and maps the outcome. -/
def registerUserHandler (db : AuthDb) (b : RegisterBody) : HttpResponse :=
  registerReply (registerUser db b)

/-- Response statuses declared by the register route schema
(`auth.register.schema.ts`): 201, 400, 409 (duplicate email or username)
and 500. -/
def registerSchemaStatuses : List ℕ := [201, 400, 409, 500]

/-! ## Auth service: JWT verification

Embedded from `apps/auth-service/src/utils/jwt.ts`. -/

/-- Failure causes `jsonwebtoken.verify` can throw. -/
inductive JwtVerifyError
  | invalidSignature
  | expired
  | malformed
deriving DecidableEq, Repr

/-- Decoded token payload. -/
structure JwtPayload where
  userId : String
deriving DecidableEq, Repr

/-- Function `verifyJwt(token)` from `jwt.ts`: wraps `jwt.verify(token,
JWT_SECRET)` in a try/catch whose catch-all returns `null` — the abstract
`verify` argument stands for `jwt.verify` against the configured secret, with
`Except.error` modelling a throw. -/
def verifyJwt (verify : String → Except JwtVerifyError JwtPayload)
    (token : String) : Option JwtPayload :=
  match verify token with
  | .ok p => some p
  | .error _ => none

/-! ## Simulation invariants -/

/-- Score safety: both scores stay at or below the win threshold, and while
the simulation has not concluded both stay strictly below it. -/
def ScoreInv (s : SimState) : Prop :=
  s.score1 ≤ s.winScore ∧ s.score2 ≤ s.winScore ∧
    (s.winner = none → s.score1 < s.winScore ∧ s.score2 < s.winScore)

instance scoreInvDecidable (s : SimState) : Decidable (ScoreInv s) := by
  unfold ScoreInv
  infer_instance

/-- Playfield bounds: the ball and both paddles lie inside the fixed
playfield. -/
def InBounds (s : SimState) : Prop :=
  0 ≤ s.ball.x ∧ s.ball.x ≤ GAME_WIDTH - BALL_SIZE ∧
    0 ≤ s.ball.y ∧ s.ball.y ≤ GAME_HEIGHT - BALL_SIZE ∧
    0 ≤ s.paddle1 ∧ s.paddle1 ≤ GAME_HEIGHT - PADDLE_HEIGHT ∧
    0 ≤ s.paddle2 ∧ s.paddle2 ≤ GAME_HEIGHT - PADDLE_HEIGHT

instance inBoundsDecidable (s : SimState) : Decidable (InBounds s) := by
  unfold InBounds
  infer_instance

/-- Validity of a step sequence: elapsed times are nonnegative. -/
def ValidSteps (l : List Step) : Prop := ∀ p ∈ l, 0 ≤ p.1

instance validStepsDecidable (l : List Step) : Decidable (ValidSteps l) := by
  unfold ValidSteps
  infer_instance

lemma clampQ_nonneg (hi v : ℚ) : 0 ≤ clampQ hi v := le_max_left 0 _

lemma clampQ_le (hi v : ℚ) (h : 0 ≤ hi) : clampQ hi v ≤ hi :=
  max_le h (min_le_right v hi)

/-- Bounds of the ball component alone. -/
def BallInBounds (b : Ball) : Prop :=
  0 ≤ b.x ∧ b.x ≤ GAME_WIDTH - BALL_SIZE ∧
    0 ≤ b.y ∧ b.y ≤ GAME_HEIGHT - BALL_SIZE

/-- Once concluded, a tick is the identity: play stops at the reaching tick. -/
lemma advance_of_concluded (dt : ℚ) (d1 d2 : Dir) (s : SimState)
    (h : s.winner.isSome) : advance dt d1 d2 s = s := by
  unfold advance
  simp [h]

/-- Folding a ball outcome never lowers either score. -/
lemma applyMove_score_mono (p1 p2 : ℚ) (m : Moved) (s : SimState) :
    s.score1 ≤ (applyMove p1 p2 m s).score1 ∧
      s.score2 ≤ (applyMove p1 p2 m s).score2 := by
  unfold applyMove
  rcases m with ⟨b, _ | side⟩
  · simp
  · cases side <;> simp

/-- Folding a ball outcome leaves the configured threshold unchanged. -/
lemma applyMove_winScore (p1 p2 : ℚ) (m : Moved) (s : SimState) :
    (applyMove p1 p2 m s).winScore = s.winScore := by
  unfold applyMove
  rcases m with ⟨b, _ | side⟩
  · simp
  · cases side <;> simp

/-- One tick never lowers either score. -/
lemma advance_score_mono (dt : ℚ) (d1 d2 : Dir) (s : SimState) :
    s.score1 ≤ (advance dt d1 d2 s).score1 ∧
      s.score2 ≤ (advance dt d1 d2 s).score2 := by
  unfold advance
  split_ifs
  · exact ⟨le_refl _, le_refl _⟩
  · exact applyMove_score_mono _ _ _ _

/-- One tick leaves the configured threshold unchanged. -/
lemma advance_winScore (dt : ℚ) (d1 d2 : Dir) (s : SimState) :
    (advance dt d1 d2 s).winScore = s.winScore := by
  unfold advance
  split_ifs
  · rfl
  · exact applyMove_winScore _ _ _ _

/-- Folding a ball outcome preserves score safety. -/
lemma applyMove_scoreInv (p1 p2 : ℚ) (m : Moved) (s : SimState)
    (hw : s.winner = none) (h : ScoreInv s) :
    ScoreInv (applyMove p1 p2 m s) := by
  obtain ⟨h1, h2, h3⟩ := h
  obtain ⟨h4, h5⟩ := h3 hw
  unfold ScoreInv
  unfold applyMove
  rcases m with ⟨b, _ | side⟩
  · simpa using ⟨h1, h2, fun _ => ⟨h4, h5⟩⟩
  · cases side <;> simp <;> omega

/-- One tick preserves score safety. -/
lemma advance_scoreInv (dt : ℚ) (d1 d2 : Dir) (s : SimState)
    (h : ScoreInv s) : ScoreInv (advance dt d1 d2 s) := by
  by_cases hw : s.winner.isSome
  · rwa [advance_of_concluded dt d1 d2 s hw]
  · have hwn : s.winner = none := Option.not_isSome_iff_eq_none.mp hw
    unfold advance
    simp only [hw, Bool.false_eq_true, if_false]
    exact applyMove_scoreInv _ _ _ _ hwn h

/-- Score safety propagates along any step sequence. -/
lemma runSim_scoreInv (l : List Step) (s : SimState) (h : ScoreInv s) :
    ScoreInv (runSim s l) := by
  induction l generalizing s with
  | nil => exact h
  | cons p rest ih =>
      obtain ⟨dt, d1, d2⟩ := p
      exact ih _ (advance_scoreInv dt d1 d2 s h)

/-- Fold step at which participant one reaches the threshold: the simulation
is marked concluded with participant one as winner. -/
lemma applyMove_reach_one (p1 p2 : ℚ) (m : Moved) (s : SimState)
    (heq : (applyMove p1 p2 m s).score1 = s.winScore)
    (hlt : s.score1 < s.winScore) :
    (applyMove p1 p2 m s).winner = some .one := by
  unfold applyMove at heq ⊢
  rcases m with ⟨b, _ | side⟩
  · simp at heq
    exfalso
    omega
  · cases side
    · simp at heq
      exfalso
      omega
    · simp at heq ⊢
      omega

/-- Fold step at which participant two reaches the threshold: the simulation
is marked concluded with participant two as winner. -/
lemma applyMove_reach_two (p1 p2 : ℚ) (m : Moved) (s : SimState)
    (heq : (applyMove p1 p2 m s).score2 = s.winScore)
    (hlt : s.score2 < s.winScore) :
    (applyMove p1 p2 m s).winner = some .two := by
  unfold applyMove at heq ⊢
  rcases m with ⟨b, _ | side⟩
  · simp at heq
    exfalso
    omega
  · cases side
    · simp at heq ⊢
      omega
    · simp at heq
      exfalso
      omega

/-- Tick at which participant one reaches the threshold: the simulation is
marked concluded with participant one as winner. -/
lemma advance_reach_one (dt : ℚ) (d1 d2 : Dir) (s : SimState)
    (hw : s.winner = none)
    (heq : (advance dt d1 d2 s).score1 = s.winScore)
    (hlt : s.score1 < s.winScore) :
    (advance dt d1 d2 s).winner = some .one := by
  unfold advance at heq ⊢
  simp only [hw, Option.isSome_none, Bool.false_eq_true, if_false] at heq ⊢
  exact applyMove_reach_one _ _ _ _ heq hlt

/-- Tick at which participant two reaches the threshold: the simulation is
marked concluded with participant two as winner. -/
lemma advance_reach_two (dt : ℚ) (d1 d2 : Dir) (s : SimState)
    (hw : s.winner = none)
    (heq : (advance dt d1 d2 s).score2 = s.winScore)
    (hlt : s.score2 < s.winScore) :
    (advance dt d1 d2 s).winner = some .two := by
  unfold advance at heq ⊢
  simp only [hw, Option.isSome_none, Bool.false_eq_true, if_false] at heq ⊢
  exact applyMove_reach_two _ _ _ _ heq hlt

/-- Paddle movement lands inside the vertical bounds for any input. -/
lemma paddleStep_bounds (dtc : ℚ) (d : Dir) (y : ℚ) :
    0 ≤ paddleStep dtc d y ∧ paddleStep dtc d y ≤ GAME_HEIGHT - PADDLE_HEIGHT :=
  ⟨clampQ_nonneg _ _, clampQ_le _ _ (by norm_num [GAME_HEIGHT, PADDLE_HEIGHT])⟩

/-- The moved ball lands inside the playfield, whatever the inputs. -/
lemma moveBall_bounds (dtc p1 p2 : ℚ) (b : Ball) :
    BallInBounds (moveBall dtc p1 p2 b).ball := by
  unfold moveBall
  dsimp only
  split_ifs with h1 h2 h3 h4
  · exact ⟨by norm_num [PADDLE_WIDTH],
      by norm_num [PADDLE_WIDTH, GAME_WIDTH, BALL_SIZE],
      clampQ_nonneg _ _, clampQ_le _ _ (by norm_num [GAME_HEIGHT, BALL_SIZE])⟩
  · exact ⟨by norm_num [GAME_WIDTH, PADDLE_WIDTH, BALL_SIZE],
      by norm_num [GAME_WIDTH, PADDLE_WIDTH, BALL_SIZE],
      clampQ_nonneg _ _, clampQ_le _ _ (by norm_num [GAME_HEIGHT, BALL_SIZE])⟩
  · exact ⟨by norm_num [resetBall, GAME_WIDTH],
      by norm_num [resetBall, GAME_WIDTH, BALL_SIZE],
      by norm_num [resetBall, GAME_HEIGHT],
      by norm_num [resetBall, GAME_HEIGHT, BALL_SIZE]⟩
  · exact ⟨by norm_num [resetBall, GAME_WIDTH],
      by norm_num [resetBall, GAME_WIDTH, BALL_SIZE],
      by norm_num [resetBall, GAME_HEIGHT],
      by norm_num [resetBall, GAME_HEIGHT, BALL_SIZE]⟩
  · push_neg at h3 h4
    exact ⟨h3, h4, clampQ_nonneg _ _,
      clampQ_le _ _ (by norm_num [GAME_HEIGHT, BALL_SIZE])⟩

/-- Folding a ball outcome with in-bounds components yields an in-bounds
state. -/
lemma applyMove_inBounds (p1 p2 : ℚ) (m : Moved) (s : SimState)
    (hb : BallInBounds m.ball)
    (hp1 : 0 ≤ p1 ∧ p1 ≤ GAME_HEIGHT - PADDLE_HEIGHT)
    (hp2 : 0 ≤ p2 ∧ p2 ≤ GAME_HEIGHT - PADDLE_HEIGHT) :
    InBounds (applyMove p1 p2 m s) := by
  obtain ⟨hb1, hb2, hb3, hb4⟩ := hb
  unfold InBounds
  unfold applyMove
  rcases m with ⟨b, _ | side⟩
  · exact ⟨hb1, hb2, hb3, hb4, hp1.1, hp1.2, hp2.1, hp2.2⟩
  · cases side <;>
      exact ⟨hb1, hb2, hb3, hb4, hp1.1, hp1.2, hp2.1, hp2.2⟩

/-- One tick preserves the playfield bounds. -/
lemma advance_inBounds (dt : ℚ) (d1 d2 : Dir) (s : SimState)
    (h : InBounds s) : InBounds (advance dt d1 d2 s) := by
  by_cases hw : s.winner.isSome
  · rwa [advance_of_concluded dt d1 d2 s hw]
  · unfold advance
    simp only [hw, Bool.false_eq_true, if_false]
    exact applyMove_inBounds _ _ _ _ (moveBall_bounds _ _ _ _)
      (paddleStep_bounds _ _ _) (paddleStep_bounds _ _ _)

/-- Playfield bounds propagate along any step sequence. -/
lemma runSim_inBounds (l : List Step) (s : SimState) (h : InBounds s) :
    InBounds (runSim s l) := by
  induction l generalizing s with
  | nil => exact h
  | cons p rest ih =>
      obtain ⟨dt, d1, d2⟩ := p
      exact ih _ (advance_inBounds dt d1 d2 s h)

/-- The initial state satisfies the playfield bounds. -/
lemma initState_inBounds (w : ℕ) : InBounds (initState w) := by
  unfold InBounds initState
  norm_num [GAME_WIDTH, GAME_HEIGHT, PADDLE_HEIGHT, BALL_SIZE]

/-- The initial state satisfies score safety for a positive threshold. -/
lemma initState_scoreInv (w : ℕ) (h : 0 < w) : ScoreInv (initState w) := by
  unfold ScoreInv initState
  exact ⟨Nat.zero_le w, Nat.zero_le w, fun _ => ⟨h, h⟩⟩

/-- Concrete pre-scoring state used to exercise the threshold-reaching tick:
participant one is one point from the threshold and the ball is about to
cross the right boundary past a paddle that moved away. -/
def nearWinState : SimState :=
  { ball := ⟨789, 300, 5, 0⟩
    paddle1 := 250
    paddle2 := 0
    score1 := 0
    score2 := 0
    winScore := 1
    winner := none }

/-! ## Claim theorems -/

/-- C1: the spec claims every malformed inbound payload is answered with an
error notice on the same connection without terminating it, and that no
single malformed message crashes the connection handler. The handler quoted
in `docs/CODE_REVIEW.md` runs `JSON.parse` with no try/catch, so the lone
brace frame makes the handler propagate the parse exception (`crashed`) —
no error notice, dead handler — while the well-formed frame is applied.
This evaluates the embedded handler at the failing input. -/
theorem malformed_message_crashes_handler :
    onMessage malformedMsg = .crashed ∧ onMessage wellFormedMsg = .applied 1 := by
  constructor <;> rfl

/-- C2: the spec claims the session-finished report carries the full
`winnerId`/`scores`/`duration` payload. `GameManager.endGame` as documented
in `issue.md` §3.2 passes the empty string as results, so the dispatched
finish report carries none of those fields. This evaluates the embedded
notification at a finished session. -/
theorem finish_report_payload_empty :
    endGameNotify "room1" = ("room1/finish", ⟨none, none, none⟩) := rfl

/-- C3: per tick, neither score ever decreases; score safety (both scores at
or below the threshold, strictly below while unconcluded) holds along every
run and from the initial state of any positive threshold; a concluded
simulation takes no further scoring ticks; and the tick on which a score
reaches the threshold marks the simulation concluded with that participant
as the unambiguous winner. -/
theorem score_transitions_monotone_and_bounded
    (s : SimState) (dt : ℚ) (d1 d2 : Dir) (l : List Step) (w : ℕ) :
    (s.score1 ≤ (advance dt d1 d2 s).score1 ∧
      s.score2 ≤ (advance dt d1 d2 s).score2)
    ∧ (ScoreInv s → ScoreInv (runSim s l))
    ∧ (0 < w → ScoreInv (runSim (initState w) l))
    ∧ (s.winner.isSome → advance dt d1 d2 s = s)
    ∧ (s.winner = none →
        ((advance dt d1 d2 s).score1 = s.winScore → s.score1 < s.winScore →
          (advance dt d1 d2 s).winner = some .one)
        ∧ ((advance dt d1 d2 s).score2 = s.winScore → s.score2 < s.winScore →
          (advance dt d1 d2 s).winner = some .two)) :=
  ⟨advance_score_mono dt d1 d2 s,
   fun h => runSim_scoreInv l s h,
   fun hw => runSim_scoreInv l _ (initState_scoreInv w hw),
   advance_of_concluded dt d1 d2 s,
   fun hw =>
     ⟨fun heq hlt => advance_reach_one dt d1 d2 s hw heq hlt,
      fun heq hlt => advance_reach_two dt d1 d2 s hw heq hlt⟩⟩

/-- Witness for C3 at concrete inputs: score safety after a concrete run
from a threshold of 3, a frozen concluded state, and the reaching tick of
`nearWinState` concluding with participant one as winner. -/
theorem score_transitions_monotone_and_bounded_witness :
    ScoreInv (runSim (initState 3) [((1 : ℚ), Dir.zero, Dir.pos)])
    ∧ advance 1 Dir.zero Dir.zero { initState 3 with winner := some .two }
        = { initState 3 with winner := some .two }
    ∧ (advance 1 Dir.zero Dir.zero nearWinState).winner = some .one :=
  ⟨(score_transitions_monotone_and_bounded (initState 3) 1 Dir.zero Dir.pos
      [((1 : ℚ), Dir.zero, Dir.pos)] 3).2.2.1 (by decide),
   (score_transitions_monotone_and_bounded { initState 3 with winner := some .two }
      1 Dir.zero Dir.zero [] 3).2.2.2.1 rfl,
   ((score_transitions_monotone_and_bounded nearWinState 1 Dir.zero Dir.zero
      [] 3).2.2.2.2 rfl).1
     (by norm_num [advance, moveBall, applyMove, paddleStep, reflectVy,
        clampQ, resetBall, Dir.toQ, nearWinState, MAX_DT, GAME_WIDTH,
        GAME_HEIGHT, PADDLE_WIDTH, PADDLE_HEIGHT, BALL_SIZE, BALL_SPEED,
        min_def, max_def])
     (by decide)⟩

/-- C4: for valid `(dt, inputs)` sequences the ball and both paddles stay
inside the fixed playfield bounds at every tick (the invariant is preserved
by every tick, holds at the initial state, and therefore along every run),
and a paddle position produced by one tick of movement at fixed speed is
clamped into the vertical bounds whatever the input. -/
theorem playfield_bounds_invariant (s : SimState) (l : List Step) (w : ℕ)
    (dtc y : ℚ) (d : Dir) :
    (ValidSteps l → InBounds s → InBounds (runSim s l))
    ∧ InBounds (initState w)
    ∧ (ValidSteps l → InBounds (runSim (initState w) l))
    ∧ (0 ≤ paddleStep dtc d y ∧
        paddleStep dtc d y ≤ GAME_HEIGHT - PADDLE_HEIGHT) :=
  ⟨fun _ h => runSim_inBounds l s h,
   initState_inBounds w,
   fun _ => runSim_inBounds l _ (initState_inBounds w),
   paddleStep_bounds dtc d y⟩

/-- Witness for C4: bounds after a concrete valid run from the initial
state with threshold 2. -/
theorem playfield_bounds_invariant_witness :
    InBounds (runSim (initState 2) [((1 : ℚ), Dir.zero, Dir.pos)]) :=
  (playfield_bounds_invariant (initState 2) [((1 : ℚ), Dir.zero, Dir.pos)]
      2 1 0 Dir.zero).2.2.1 (by simp [ValidSteps])

/-- C5: `advance` is deterministic — identical start states and identical
ordered `(dt, inputs)` sequences produce identical outputs at every step,
for the whole trace and for the final state — and the ball reset after a
scoring event has a velocity direction that is a fixed deterministic
function of the side scored against, with no randomness. -/
theorem advance_deterministic (s1 s2 : SimState) (l1 l2 : List Step)
    (hs : s1 = s2) (hl : l1 = l2) :
    simTrace s1 l1 = simTrace s2 l2
    ∧ runSim s1 l1 = runSim s2 l2
    ∧ (resetBall .one).vx = -BALL_SPEED ∧ (resetBall .two).vx = BALL_SPEED
    ∧ (resetBall .one).vy = 0 ∧ (resetBall .two).vy = 0 := by
  subst hs
  subst hl
  exact ⟨rfl, rfl, rfl, rfl, rfl, rfl⟩

/-- Witness for C5 at a concrete state and step list. -/
theorem advance_deterministic_witness :
    simTrace (initState 3) [((1 : ℚ), Dir.pos, Dir.neg)]
        = simTrace (initState 3) [((1 : ℚ), Dir.pos, Dir.neg)]
    ∧ runSim (initState 3) [((1 : ℚ), Dir.pos, Dir.neg)]
        = runSim (initState 3) [((1 : ℚ), Dir.pos, Dir.neg)]
    ∧ (resetBall .one).vx = -BALL_SPEED ∧ (resetBall .two).vx = BALL_SPEED
    ∧ (resetBall .one).vy = 0 ∧ (resetBall .two).vy = 0 :=
  advance_deterministic (initState 3) (initState 3)
    [((1 : ℚ), Dir.pos, Dir.neg)] [((1 : ℚ), Dir.pos, Dir.neg)] rfl rfl

/-- C6 counterexample: the claim says the grace window is a configuration
value read by the session engine. Configuring a 60-second window still
leaves the engine on its hardcoded 30-second constant. -/
theorem grace_window_ignores_config :
    graceWindowMs ⟨60000⟩ = 30000 ∧ (30000 : ℕ) ≠ 60000 :=
  ⟨rfl, by decide⟩

/-- C6 amended: the reconnection grace window is the hardcoded 30-second
`GameManager` constant, not a configuration value — every configuration
yields the same 30000 ms window, and a paused session forfeits exactly
30000 ms after the disconnect regardless of the configured duration. -/
theorem grace_window_hardcoded (cfg : EngineConfig) (pausedAtMs : ℕ) :
    graceWindowMs cfg = 30000 ∧ forfeitAtMs cfg pausedAtMs = pausedAtMs + 30000 :=
  ⟨rfl, rfl⟩

/-- C7: `applyInput` fails with `InvalidInput` on any direction outside the
three permitted values (storing nothing), stores a permitted direction as
the participant's latest input while the session is running, and has no
effect on session state when the status is not running. -/
theorem applyInput_validates_and_stores (s : GameSession) (pid : Pid) (d : ℤ) :
    (¬(d = -1 ∨ d = 0 ∨ d = 1) → applyInput pid d s = .error .invalidInput)
    ∧ ((d = -1 ∨ d = 0 ∨ d = 1) → s.status = .running →
        ∃ s2, applyInput pid d s = .ok s2 ∧ latestInput pid s2 = d ∧
          s2.status = s.status)
    ∧ (s.status ≠ .running →
        applyInput pid d s = .error .invalidInput ∨ applyInput pid d s = .ok s) := by
  refine ⟨?_, ?_, ?_⟩
  · intro hnv
    unfold applyInput
    rw [if_neg hnv]
  · intro hv hr
    unfold applyInput
    rw [if_pos hv, if_pos hr]
    cases pid
    · exact ⟨_, rfl, rfl, rfl⟩
    · exact ⟨_, rfl, rfl, rfl⟩
  · intro hnr
    unfold applyInput
    split_ifs with hv
    · exact Or.inr rfl
    · exact Or.inl rfl

/-- Witness for C7: a rejected out-of-range direction, a stored permitted
direction on a running session, and a no-effect call on a paused session. -/
theorem applyInput_validates_and_stores_witness :
    applyInput .a 5 ⟨.running, 0, 0⟩ = .error .invalidInput
    ∧ (∃ s2, applyInput .a 1 ⟨.running, 0, 0⟩ = .ok s2 ∧
        latestInput .a s2 = 1 ∧ s2.status = SessionStatus.running)
    ∧ (applyInput .a 1 ⟨.paused, 0, 0⟩ = .error .invalidInput ∨
        applyInput .a 1 ⟨.paused, 0, 0⟩ = .ok ⟨.paused, 0, 0⟩) :=
  ⟨(applyInput_validates_and_stores ⟨.running, 0, 0⟩ .a 5).1 (by decide),
   (applyInput_validates_and_stores ⟨.running, 0, 0⟩ .a 1).2.1 (by decide) rfl,
   (applyInput_validates_and_stores ⟨.paused, 0, 0⟩ .a 1).2.2 (by decide)⟩

/-- C8: the five terminal connection outcomes carry pairwise distinct
termination codes, so a client can branch on the code alone. -/
theorem close_codes_distinct (o1 o2 : TermOutcome) (h : o1 ≠ o2) :
    closeCode o1 ≠ closeCode o2 := by
  cases o1 <;> cases o2 <;> first | exact absurd rfl h | decide

/-- Witness for C8 at a concrete pair of outcomes. -/
theorem close_codes_distinct_witness :
    closeCode .roomFull ≠ closeCode .gameNotFound :=
  close_codes_distinct .roomFull .gameNotFound (by decide)

/-- C9: a duplicate email registers as HTTP 400 with message `Email is
already registered` (also when the username is duplicated too — the email
check runs first), a duplicate username alone as HTTP 400 with `Username is
already taken`, any other error as HTTP 500; the handler never answers with
the 409 status that the register route schema declares for duplicates. -/
theorem register_duplicate_handling (db : AuthDb) (b : RegisterBody) :
    (b.email ∈ db.emails →
      registerUserHandler db b = ⟨400, .message "Email is already registered"⟩)
    ∧ (b.email ∉ db.emails → b.username ∈ db.usernames →
      registerUserHandler db b = ⟨400, .message "Username is already taken"⟩)
    ∧ registerReply (.error .other) = ⟨500, .message "Internal server error"⟩
    ∧ (registerUserHandler db b).status ≠ 409
    ∧ 409 ∈ registerSchemaStatuses := by
  refine ⟨?_, ?_, rfl, ?_, by decide⟩
  · intro he
    unfold registerUserHandler registerUser
    rw [if_pos he]
    rfl
  · intro hne hu
    unfold registerUserHandler registerUser
    rw [if_neg hne, if_pos hu]
    rfl
  · unfold registerUserHandler registerUser
    split_ifs <;> simp [registerReply]

/-- Witness for C9: duplicate email (also with duplicate username present)
and duplicate username alone, on a concrete database. -/
theorem register_duplicate_handling_witness :
    registerUserHandler ⟨["a@x.com"], ["bob"]⟩ ⟨"a@x.com", "bob", "pw"⟩
      = ⟨400, .message "Email is already registered"⟩
    ∧ registerUserHandler ⟨["a@x.com"], ["bob"]⟩ ⟨"b@x.com", "bob", "pw"⟩
      = ⟨400, .message "Username is already taken"⟩ :=
  ⟨(register_duplicate_handling ⟨["a@x.com"], ["bob"]⟩
      ⟨"a@x.com", "bob", "pw"⟩).1 (by decide),
   (register_duplicate_handling ⟨["a@x.com"], ["bob"]⟩
      ⟨"b@x.com", "bob", "pw"⟩).2.1 (by decide) (by decide)⟩

/-- C10: `verifyJwt` is total — it returns the decoded payload exactly when
verification succeeds, returns `null` on every verification failure whatever
its cause (so callers cannot distinguish failure causes), and never lets an
exception escape: its result is always `(verify token).toOption`. -/
theorem verifyJwt_never_throws
    (verify : String → Except JwtVerifyError JwtPayload) (token : String) :
    (∀ p, verify token = .ok p → verifyJwt verify token = some p)
    ∧ (∀ e, verify token = .error e → verifyJwt verify token = none)
    ∧ verifyJwt verify token = (verify token).toOption
    ∧ (∀ t1 t2 e1 e2, verify t1 = .error e1 → verify t2 = .error e2 →
        verifyJwt verify t1 = verifyJwt verify t2) := by
  refine ⟨?_, ?_, ?_, ?_⟩
  · intro p hp
    unfold verifyJwt
    rw [hp]
  · intro e he
    unfold verifyJwt
    rw [he]
  · unfold verifyJwt
    cases hv : verify token <;> rfl
  · intro t1 t2 e1 e2 h1 h2
    unfold verifyJwt
    rw [h1, h2]

/-- Witness for C10: a succeeding verifier, a throwing verifier, and the
indistinguishability of two failures. -/
theorem verifyJwt_never_throws_witness :
    verifyJwt (fun _ => .ok ⟨"u1"⟩) "token" = some ⟨"u1"⟩
    ∧ verifyJwt (fun _ => .error .expired) "token" = none
    ∧ verifyJwt (fun _ => .error .expired) "t1"
        = verifyJwt (fun _ => .error .expired) "t2" :=
  ⟨(verifyJwt_never_throws (fun _ => .ok ⟨"u1"⟩) "token").1 ⟨"u1"⟩ rfl,
   (verifyJwt_never_throws (fun _ => .error .expired) "token").2.1 .expired rfl,
   (verifyJwt_never_throws (fun _ => .error .expired) "t1").2.2.2
     "t1" "t2" .expired .expired rfl rfl⟩

end Transcendence
